import Mathlib

/-!
Verification of the workflow-orchestration core of the scout-plan-build
repository, shallowly embedded in Lean 4.

The development models:
* `adws/adw_modules/state.py` — the durable workflow state store (`ADWState`);
* `ai_docs/upgrades/refinery_backup_20251125_231038/adws/adw_modules/git_ops.py`
  — the Git/PR finalizer (`finalize_git_operations`, `check_pr_exists`);
* `ai_docs/upgrades/meow_loader_v2_backup_20251125_231026/adws/adw_sdlc.py`
  — the phase-pipeline orchestrator (sequential `main` and `run_parallel`);
* `adws/adw_common.py` (`generate_run_id`, `slugify`) and
  `agents/run_manager.py` (`RunManager`) — the run-lifecycle tracker.

Effects (filesystem, subprocesses, network) are made explicit: the outcome of
each external call is an input to the embedded function, and the function
returns the data it would have written together with a trace of the actions it
performed.
-/

namespace StateStore

/-- Python truthiness of an optional string: `None` and `""` are falsy. -/
def pyTruthy : Option String → Bool
  | none => false
  | some s => !s.isEmpty

/-- The `self.data` dict of `ADWState`, restricted to the five core fields.
`ADWState.update` whitelists exactly these keys, and `ADWState.__init__` puts
only `adw_id` in the dict, so every reachable `data` dict is a partial map on
these five keys; a `none` field models both an absent key and a JSON null
(which are indistinguishable through `ADWState.get`). -/
structure StateData where
  adw_id : Option String := none
  issue_number : Option String := none
  branch_name : Option String := none
  plan_file : Option String := none
  issue_class : Option String := none
  deriving DecidableEq, Repr

/-- The `ADWState` object: the instance attribute `self.adw_id` plus the
`self.data` dict. -/
structure ADWState where
  adw_id : String
  data : StateData
  deriving DecidableEq, Repr

/-- The keyword arguments of one `ADWState.update(**kwargs)` call: an optional
new value for each of the five core fields, plus arbitrary non-core keys
(which the source filters out against `core_fields`). -/
structure UpdateKwargs where
  adw_id : Option String := none
  issue_number : Option String := none
  branch_name : Option String := none
  plan_file : Option String := none
  issue_class : Option String := none
  unknown : List (String × String) := []
  deriving Repr

/-- Models `ADWState.__init__(adw_id)`: raises `ValidationError` when `adw_id`
is falsy, otherwise starts with the minimal dict `{"adw_id": adw_id}`. -/
def ADWState.create (adw_id : String) : Except String ADWState :=
  if adw_id.isEmpty then
    .error "adw_id is required for ADWState"
  else
    .ok { adw_id := adw_id, data := { adw_id := some adw_id } }

/-- One key of an update: a supplied kwarg overwrites, an absent kwarg keeps
the previous entry. -/
def setIfGiven (new old : Option String) : Option String :=
  match new with
  | some v => some v
  | none => old

/-- Models `ADWState.update(**kwargs)`: each supplied core-field key
overwrites `self.data[key]`; keys outside `core_fields` are silently ignored.
Note that `"adw_id"` is itself a member of `core_fields` in the source, so an
update may overwrite the stored id; the instance attribute `self.adw_id` is
never touched. -/
def ADWState.update (s : ADWState) (kw : UpdateKwargs) : ADWState :=
  { s with data :=
    { adw_id := setIfGiven kw.adw_id s.data.adw_id
      issue_number := setIfGiven kw.issue_number s.data.issue_number
      branch_name := setIfGiven kw.branch_name s.data.branch_name
      plan_file := setIfGiven kw.plan_file s.data.plan_file
      issue_class := setIfGiven kw.issue_class s.data.issue_class } }

/-- Models `ADWState.get(key)` for the five core keys, as the record of all
five observations (what `to_stdout` emits and `save` reads). -/
def ADWState.observations (s : ADWState) : StateData := s.data

/-- Modelled from the spec: `adw_modules/data_types.py` (the pydantic model
`ADWStateData`) is not among the sources; §3 and §6 of the spec give its
schema — the workflow state document carries exactly
`{workflow_id, issue_reference, branch_name, plan_artifact_path,
issue_classification}` with `workflow_id` required and non-empty and the rest
optional. -/
structure ADWStateData where
  adw_id : String
  issue_number : Option String
  branch_name : Option String
  plan_file : Option String
  issue_class : Option String
  deriving DecidableEq, Repr

/-- Modelled from the spec: validation performed by constructing
`ADWStateData(...)` — it fails exactly when the required `workflow_id` is
missing or empty (spec §3: "workflow_id is required and non-empty"); the four
remaining fields are optional. -/
def ADWStateData.validate (adw_id issue_number branch_name plan_file issue_class :
    Option String) : Except String ADWStateData :=
  match adw_id with
  | none => .error "adw_id is required"
  | some a =>
    if a.isEmpty then .error "adw_id must be non-empty"
    else .ok ⟨a, issue_number, branch_name, plan_file, issue_class⟩

/-- Models `ADWState.save`: builds `ADWStateData` from the five
`self.data.get(...)` reads (raising `StateError` when validation fails) and
writes its `model_dump()` as JSON. The filesystem write is abstracted as
successful; the returned document is the file content written. -/
def ADWState.save (s : ADWState) : Except String ADWStateData :=
  ADWStateData.validate s.data.adw_id s.data.issue_number s.data.branch_name
    s.data.plan_file s.data.issue_class

/-- The JSON object parsed from a state file, projected onto the keys the
pydantic model reads (extra keys are ignored by the model); any field may be
missing or null. -/
structure JsonDoc where
  adw_id : Option String := none
  issue_number : Option String := none
  branch_name : Option String := none
  plan_file : Option String := none
  issue_class : Option String := none
  deriving DecidableEq, Repr

/-- The content the state file can have when `ADWState.load` runs: the file is
absent, it fails to parse as JSON, or it parses to a JSON object. -/
inductive StateFileContent where
  | absent
  | unparsable (raw : String)
  | parsed (doc : JsonDoc)
  deriving DecidableEq, Repr

/-- Serialization of a saved document back to the JSON object `json.dump`
wrote: all five keys present, optional ones possibly null. -/
def ADWStateData.toDoc (d : ADWStateData) : JsonDoc :=
  { adw_id := some d.adw_id
    issue_number := d.issue_number
    branch_name := d.branch_name
    plan_file := d.plan_file
    issue_class := d.issue_class }

/-- Models `ADWState.load`: returns `None` when the file is absent; otherwise
parses, validates via `ADWStateData(**data)`, rebuilds the state with
`cls(state_data.adw_id)` and `state.data = state_data.model_dump()`. Every
exception along the way (`ValidationError`, `json.JSONDecodeError`,
`FileSystemError`, and a final catch-all `except Exception`) is caught and
turned into `None`, which is why the embedding is a total function into
`Option` rather than `Except`. -/
def ADWState.load (c : StateFileContent) : Option ADWState :=
  match c with
  | .absent => none
  | .unparsable _ => none
  | .parsed doc =>
    match ADWStateData.validate doc.adw_id doc.issue_number doc.branch_name
        doc.plan_file doc.issue_class with
    | .error _ => none
    | .ok sd =>
      some { adw_id := sd.adw_id
             data := { adw_id := some sd.adw_id
                       issue_number := sd.issue_number
                       branch_name := sd.branch_name
                       plan_file := sd.plan_file
                       issue_class := sd.issue_class } }

/-- Folding a sequence of `update` calls over a state. -/
def applyUpdates (s : ADWState) (us : List UpdateKwargs) : ADWState :=
  us.foldl ADWState.update s

end StateStore

namespace GitOps

/-- Scans a character list for an occurrence of `pat` (Python's `sub in s`
on the decoded characters). -/
def listHasInfix (pat : List Char) : List Char → Bool
  | [] => pat.isEmpty
  | c :: rest => pat.isPrefixOf (c :: rest) || listHasInfix pat rest

/-- Substring test, used for Python's `sub in s`. -/
def hasSubstr (s sub : String) : Bool :=
  listHasInfix sub.toList s.toList

/-- Python's `str.lower()` on the decoded characters. -/
def strLower (s : String) : String :=
  String.mk (s.toList.map Char.toLower)

/-- One character admitted by `SafeGitBranch`'s pattern `^[a-zA-Z0-9\-_/]+$`. -/
def isBranchChar (c : Char) : Bool :=
  c.isAlpha || c.isDigit || c == '-' || c == '_' || c == '/'

/-- Python's `str.startswith` for a single character. -/
def startsWithChar (s : String) (c : Char) : Bool :=
  [c].isPrefixOf s.toList

/-- Python's `str.endswith` for a single character. -/
def endsWithChar (s : String) (c : Char) : Bool :=
  [c].isSuffixOf s.toList

/-- Models `validators.validate_branch_name` / `SafeGitBranch`: length 1..255,
pattern `^[a-zA-Z0-9\-_/]+$`, no leading or trailing `/`, `-`, `_`, not a
reserved name (`head`/`master`/`main`, case-insensitively), and no `//`.
Returns `false` where the source raises `ValidationError`. -/
def validate_branch_name (b : String) : Bool :=
  1 ≤ b.toList.length && b.toList.length ≤ 255
  && b.toList.all isBranchChar
  && !(startsWithChar b '/' || startsWithChar b '-' || startsWithChar b '_')
  && !(endsWithChar b '/' || endsWithChar b '-' || endsWithChar b '_')
  && !(strLower b == "head" || strLower b == "master" || strLower b == "main")
  && !(hasSubstr b "//")

/-- Outcome of the `gh pr list --json url` subprocess inside
`_check_pr_github`: the command succeeds and its stdout parses to a JSON list
of PR urls, the command exits non-zero with some stderr, or its stdout is not
valid JSON. -/
inductive GhListOutcome where
  | success (prUrls : List String)
  | cmdFailed (stderr : String)
  | badJson (raw : String)
  deriving DecidableEq, Repr

/-- Environment of one `_check_pr_github` call: whether
`get_repo_url`/`extract_repo_path` succeed, and the `gh` subprocess outcome. -/
structure GhEnv where
  repoInfoOk : Bool
  outcome : GhListOutcome
  deriving DecidableEq, Repr

/-- Models `_check_pr_github`: raises `GitHubAPIError` (the `.error` branch)
when repository information cannot be obtained, when `gh` fails without the
"no pull requests" marker in stderr, or when the output is unparseable; a
successful empty list and a failing command whose stderr contains
"no pull requests" both yield `None`; otherwise the first PR's url. -/
def check_pr_github (env : GhEnv) : Except String (Option String) :=
  if !env.repoInfoOk then
    .error "Failed to get repository information"
  else
    match env.outcome with
    | .success prUrls =>
      match prUrls with
      | [] => .ok none
      | u :: _ => .ok (some u)
    | .cmdFailed stderr =>
      if hasSubstr (strLower stderr) "no pull requests" then .ok none
      else .error "Failed to check for existing PR"
    | .badJson _ => .error "Failed to parse PR list response"

/-- Outcome of the Bitbucket REST request inside `_check_pr_bitbucket`: either
a successful response whose `values` list carries the (possibly missing) html
href of each open PR, or any exception along the way (network failure,
non-2xx status, missing credentials, bad JSON) with its message. -/
inductive BbOutcome where
  | success (hrefs : List (Option String))
  | failure (reason : String)
  deriving DecidableEq, Repr

/-- Models `_check_pr_bitbucket`: on a response with a non-empty `values`
list, the first entry's href; on an empty list, `None`; and on ANY exception,
the `except Exception` handler logs a warning and returns `None` — a failed
lookup is indistinguishable from "no PR found". -/
def check_pr_bitbucket (env : BbOutcome) : Option String :=
  match env with
  | .success hrefs =>
    match hrefs with
    | [] => none
    | h :: _ => h
  | .failure _ => none

/-- The VCS provider reported by `detect_vcs_provider` (a detection exception
falls back to `github` in `check_pr_exists`). -/
inductive Provider where
  | github
  | bitbucket
  | other (name : String)
  deriving DecidableEq, Repr

/-- Models `check_pr_exists`: validates the branch name, dispatches on the
detected provider; GitHub may raise, Bitbucket never does, an unsupported
provider raises. -/
def check_pr_exists (branch : String) (provider : Provider) (gh : GhEnv)
    (bb : BbOutcome) : Except String (Option String) :=
  if !validate_branch_name branch then
    .error "branch name failed validation"
  else
    match provider with
    | .github => check_pr_github gh
    | .bitbucket => .ok (check_pr_bitbucket bb)
    | .other _ => .error "Unsupported VCS provider"

/-- Observable actions of one `finalize_git_operations` run, in program
order. -/
inductive Event where
  | warnedFallback (branch : String)
  | erroredState (msg : String)
  | pushed (branch : String)
  | pushFailed
  | checkedPR (branch : String)
  | lookupErrored
  | foundExisting (url : String)
  | commented
  | fetchedIssue
  | invokedCreate (branch : String)
  | createdPR (url : String)
  | createFailed
  deriving DecidableEq, Repr

/-- Environment of one `finalize_git_operations` run: the state's relevant
entries and the outcome of each external call the run may make. -/
structure FinalizeEnv where
  stateBranch : Option String
  stateIssue : Option String
  stateAdwId : Option String
  currentBranch : Except String String
  pushExit : Int
  lookup : Except String (Option String)
  fetchIssue : Except String Unit
  createResult : Option String × Option String
  deriving Repr

/-- The `make_issue_comment` call sites: a comment is posted only when both
`issue_number` and `adw_id` are truthy (failures are swallowed). -/
def commentEvents (env : FinalizeEnv) : List Event :=
  if StateStore.pyTruthy env.stateIssue && StateStore.pyTruthy env.stateAdwId then
    [.commented]
  else []

/-- The create-new-PR arm of `finalize_git_operations`: with a truthy issue
number the issue is fetched (exceptions leave `pr_url = None`) and
`create_pull_request` is invoked; without one, `pr_url, error = None,
"No issue number in state"`. A truthy resulting url is logged as created and
commented back; a falsy one is logged as a failure. -/
def createPart (env : FinalizeEnv) (branch : String) : List Event :=
  if StateStore.pyTruthy env.stateIssue then
    match env.fetchIssue with
    | .error _ => [.createFailed]
    | .ok _ =>
      .fetchedIssue :: .invokedCreate branch ::
        (match env.createResult.1 with
         | some url => if url.isEmpty then [.createFailed]
                       else .createdPR url :: commentEvents env
         | none => [.createFailed])
  else [.createFailed]

/-- The PR-handling tail of `finalize_git_operations` after the push: the
lookup raising `GitHubAPIError` is handled and ends the run; a truthy url
short-circuits to "found existing"; a falsy result falls through to
creation. -/
def lookupPart (env : FinalizeEnv) (branch : String) : List Event :=
  match env.lookup with
  | .error _ => [.lookupErrored]
  | .ok pr =>
    match pr with
    | some url => if url.isEmpty then createPart env branch
                  else .foundExisting url :: commentEvents env
    | none => createPart env branch

/-- The push step and everything after it: `push_branch` validates the name
and runs `git push`; a validation or push failure ends the run before any PR
lookup. -/
def pushPart (env : FinalizeEnv) (branch : String) : List Event :=
  if validate_branch_name branch && env.pushExit == 0 then
    .pushed branch :: .checkedPR branch :: lookupPart env branch
  else [.pushFailed]

/-- The branch-name fallback of `finalize_git_operations` when the state has
no truthy `branch_name`: use the current git branch unless it is empty or
`main`. -/
def branchFallback (env : FinalizeEnv) : List Event :=
  match env.currentBranch with
  | .error _ => [.erroredState "Failed to get current branch"]
  | .ok cur =>
    if !cur.isEmpty && cur != "main" then
      .warnedFallback cur :: pushPart env cur
    else [.erroredState "No branch name in state and current branch is main"]

/-- Models `finalize_git_operations`: resolve the branch, push it, look up an
existing PR, and either report it or create a new one; returns the trace of
actions performed. -/
def finalize_git_operations (env : FinalizeEnv) : List Event :=
  match env.stateBranch with
  | some s => if s.isEmpty then branchFallback env else pushPart env s
  | none => branchFallback env

/-- Whether an event is the invocation of `create_pull_request`. -/
def Event.isCreate : Event → Bool
  | .invokedCreate _ => true
  | _ => false

/-- How many times one finalize run invokes `create_pull_request`. -/
def createCount (env : FinalizeEnv) : Nat :=
  ((finalize_git_operations env).filter Event.isCreate).length

end GitOps

namespace Sdlc

/-- One spawned phase child process: its exit code and how long it runs
(wall-clock, in any fixed unit). -/
structure PhaseProc where
  exitCode : Int
  duration : Nat
  deriving DecidableEq, Repr

/-- The three processes `run_parallel` spawns. -/
structure ParallelEnv where
  testProc : PhaseProc
  reviewProc : PhaseProc
  documentProc : PhaseProc
  deriving DecidableEq, Repr

/-- Observable outcome of one `run_parallel` call: which phases it reported
as failed, whether it ran the aggregated `git add`/`git commit`/`git push`,
its boolean result, and the wall-clock time its three `Popen.wait()` calls
took overall. -/
structure ParallelOutcome where
  failed : List String
  committed : Bool
  pushed : Bool
  ok : Bool
  elapsed : Nat
  deriving DecidableEq, Repr

/-- Models `run_parallel`: the three phases are started concurrently and each
is waited on with `Popen.wait()` — no timeout argument, so the waits return
only when every process has exited, after `max` of the three durations. If
any exit code is non-zero the failing phases are reported and the function
returns `False` without committing; otherwise one aggregated commit is staged,
committed and pushed. -/
def run_parallel (env : ParallelEnv) : ParallelOutcome :=
  let t := env.testProc.exitCode
  let r := env.reviewProc.exitCode
  let d := env.documentProc.exitCode
  let elapsed := max env.testProc.duration (max env.reviewProc.duration
    env.documentProc.duration)
  if t != 0 || r != 0 || d != 0 then
    { failed := (if t != 0 then ["test"] else [])
        ++ (if r != 0 then ["review"] else [])
        ++ (if d != 0 then ["document"] else [])
      committed := false
      pushed := false
      ok := false
      elapsed := elapsed }
  else
    { failed := []
      committed := true
      pushed := true
      ok := true
      elapsed := elapsed }

/-- Exit codes of the five phase child processes as `main` would observe them
were each started. -/
structure SeqEnv where
  planExit : Int
  buildExit : Int
  testExit : Int
  reviewExit : Int
  documentExit : Int
  deriving DecidableEq, Repr

/-- Result of the sequential pipeline: which phases were started (in order)
and the orchestrator's exit code. -/
structure SeqResult where
  started : List String
  exitCode : Nat
  deriving DecidableEq, Repr

/-- Models the sequential arm of `adw_sdlc.main`: run `plan`, `build`,
`test`, `review`, `document` in order, each waited to completion; the first
non-zero exit triggers `sys.exit(1)` at once, so no later phase is started. -/
def mainSequential (env : SeqEnv) : SeqResult :=
  if env.planExit != 0 then
    { started := ["plan"], exitCode := 1 }
  else if env.buildExit != 0 then
    { started := ["plan", "build"], exitCode := 1 }
  else if env.testExit != 0 then
    { started := ["plan", "build", "test"], exitCode := 1 }
  else if env.reviewExit != 0 then
    { started := ["plan", "build", "test", "review"], exitCode := 1 }
  else if env.documentExit != 0 then
    { started := ["plan", "build", "test", "review", "document"], exitCode := 1 }
  else
    { started := ["plan", "build", "test", "review", "document"], exitCode := 0 }

/-- The five phase names in pipeline order. -/
def phaseName : Fin 5 → String
  | 0 => "plan"
  | 1 => "build"
  | 2 => "test"
  | 3 => "review"
  | 4 => "document"

/-- The exit code `main` observes for the given phase. -/
def phaseExit (env : SeqEnv) : Fin 5 → Int
  | 0 => env.planExit
  | 1 => env.buildExit
  | 2 => env.testExit
  | 3 => env.reviewExit
  | 4 => env.documentExit

end Sdlc

namespace RunId

/-- One character class of `slugify`'s regex `[^a-z0-9]+`: lower-case letters
and digits survive, everything else becomes a dash. -/
def isSlugChar (c : Char) : Bool :=
  ('a' ≤ c && c ≤ 'z') || ('0' ≤ c && c ≤ '9')

/-- Collapses runs of dashes to a single dash (the `re.sub(r"-+", "-", ...)`
step; combined with mapping every non-slug character to a dash this also
realises `re.sub(r"[^a-z0-9]+", "-", ...)`, which replaces a whole run by one
dash). -/
def collapseDashes : List Char → List Char
  | [] => []
  | '-' :: rest =>
    match collapseDashes rest with
    | '-' :: tail => '-' :: tail
    | tail => '-' :: tail
  | c :: rest => c :: collapseDashes rest

/-- Drops the dashes `str.strip("-")` removes at both ends. -/
def stripDashes (l : List Char) : List Char :=
  ((l.dropWhile (· == '-')).reverse.dropWhile (· == '-')).reverse

/-- Python's `str.strip()` on the decoded characters: drop whitespace at both
ends. -/
def stripSpace (l : List Char) : List Char :=
  ((l.dropWhile Char.isWhitespace).reverse.dropWhile Char.isWhitespace).reverse

/-- Models `adw_common.slugify`: lower-case and whitespace-strip the text,
replace every maximal run of non-`[a-z0-9]` characters by one dash, and strip
leading/trailing dashes. -/
def slugify (text : String) : String :=
  let lowered := stripSpace (text.toList.map Char.toLower)
  let dashed := lowered.map (fun c => if isSlugChar c then c else '-')
  String.mk (stripDashes (collapseDashes dashed))

/-- One hexadecimal digit as `binascii.hexlify` prints it (lower case). -/
def hexDigit (n : Nat) : Char :=
  if n < 10 then Char.ofNat (48 + n) else Char.ofNat (87 + n)

/-- Models `secrets.token_hex(2)`: two random bytes rendered as four
lower-case hex digits; the randomness is the argument, so the function's
domain `Fin 65536` is exactly the set of values the token can take. -/
def token_hex2 (b : Fin 65536) : String :=
  String.mk [hexDigit (b / 4096 % 16), hexDigit (b / 256 % 16),
    hexDigit (b / 16 % 16), hexDigit (b % 16)]

/-- Models `adw_common.generate_run_id` with its effects made explicit: the
current date (`MMDD`) and the drawn hex token are arguments; the body is
`f"{date_part}-{slug_part}-{hash_part}"` with `slug_part` built from the task
type (first 20 slug chars) and optional task name (first 10). -/
def generate_run_id (datePart taskType taskName : String) (hexToken : String) :
    String :=
  let slugPart := (slugify taskType).take 20
  let slugPart := if taskName.isEmpty then slugPart
                  else slugPart ++ "-" ++ (slugify taskName).take 10
  datePart ++ "-" ++ slugPart ++ "-" ++ hexToken

/-- The `run_id` allocated by `RunManager.start(task_type, description)`:
`generate_run_id(task_type, task_description)` with the RNG draw explicit. -/
def startRunId (datePart taskType description : String) (rand : Fin 65536) :
    String :=
  generate_run_id datePart taskType description (token_hex2 rand)

end RunId

namespace RunMgr

/-- The `RunState` enum of `run_manager.py`. -/
inductive RunStatus where
  | ACTIVE
  | DONE
  | CRASHED
  | STALLED
  | CANCELLED
  deriving DecidableEq, Repr

/-- The immutable `RunMetadata` dataclass captured at `RunManager.start`. -/
structure RunMetadata where
  run_id : String
  task_type : String
  task_description : String
  started_at : String
  session_id : String
  session_short : String
  git_hash : String
  git_branch : String
  model : String
  parent_run_id : Option String
  config_hash : Option String
  deriving DecidableEq, Repr

/-- The mutable `RunState_Data` dataclass. -/
structure RunStateData where
  status : RunStatus := .ACTIVE
  progress : Int := 0
  last_heartbeat : Option String := none
  completed_at : Option String := none
  error : Option String := none
  output_path : Option String := none
  artifacts : List String := []
  deriving DecidableEq, Repr

/-- A `RunManager` instance: identifier, immutable metadata and mutable
state (the run directory paths are derived from `run_id` and carry no extra
information). -/
structure RunManager where
  run_id : String
  metadata : RunMetadata
  state : RunStateData
  deriving DecidableEq, Repr

/-- Models `RunManager.complete(output_path)`: sets `status = DONE`, forces
`progress = 100`, stamps `completed_at = now`, and overwrites `output_path`
only when the argument is truthy (`if output_path:`); the state is then
written to disk. Nothing else — in particular no metadata field — is
touched. -/
def RunManager.complete (m : RunManager) (now : String)
    (output_path : Option String) : RunManager :=
  { m with state :=
    { m.state with
      status := .DONE
      progress := 100
      completed_at := some now
      output_path := if StateStore.pyTruthy output_path then output_path
                     else m.state.output_path } }

end RunMgr

/-! Concrete instances used to exercise the definitions. -/

namespace StateStore

/-- The state `ADWState.create "ADW-7F2A"` produces. -/
def baseState : ADWState :=
  { adw_id := "ADW-7F2A", data := { adw_id := some "ADW-7F2A" } }

/-- The kwargs of `update(branch_name="feature/x")`. -/
def branchKwargs : UpdateKwargs :=
  { branch_name := some "feature/x" }

/-- The update sequence of the spec's scenario: a single
`update(branch_name="feature/x")`. -/
def scenarioUpdates : List UpdateKwargs := [branchKwargs]

/-- The scenario state: `create("ADW-7F2A")` then
`update(branch_name="feature/x")`. -/
def scenarioState : ADWState := baseState.update branchKwargs

/-- The document `scenarioState.save` writes. -/
def scenarioDoc : ADWStateData :=
  { adw_id := "ADW-7F2A", issue_number := none, branch_name := some "feature/x"
    plan_file := none, issue_class := none }

/-- A parsed state file whose document violates the schema: `adw_id`
missing. -/
def docNoAdwId : JsonDoc := {}

end StateStore

namespace GitOps

/-- A finalize environment in which the PR lookup reports "no existing PR"
and creation succeeds. -/
def envCreateRun : FinalizeEnv :=
  { stateBranch := some "feature/x"
    stateIssue := some "12"
    stateAdwId := some "ADW-7F2A"
    currentBranch := .ok "feature/x"
    pushExit := 0
    lookup := .ok none
    fetchIssue := .ok ()
    createResult := (some "https://example.com/pr/1", none) }

/-- A finalize environment in which the PR lookup finds an existing PR. -/
def envFoundRun : FinalizeEnv :=
  { stateBranch := some "feature/x"
    stateIssue := some "12"
    stateAdwId := some "ADW-7F2A"
    currentBranch := .ok "feature/x"
    pushExit := 0
    lookup := .ok (some "https://example.com/pr/1")
    fetchIssue := .ok ()
    createResult := (some "https://example.com/pr/2", none) }

end GitOps

namespace Sdlc

/-- A sequential run in which the `test` phase exits `1`. -/
def envSeqTestFail : SeqEnv :=
  { planExit := 0, buildExit := 0, testExit := 1, reviewExit := 0
    documentExit := 0 }

/-- Concurrent phases with durations 2/3/1 where the `review` phase
(duration 3) exits `1` — the spec's concurrent scenario. -/
def envParReviewFail : ParallelEnv :=
  { testProc := { exitCode := 0, duration := 2 }
    reviewProc := { exitCode := 1, duration := 3 }
    documentProc := { exitCode := 0, duration := 1 } }

/-- Concurrent phases that all succeed. -/
def envParAllOk : ParallelEnv :=
  { testProc := { exitCode := 0, duration := 2 }
    reviewProc := { exitCode := 0, duration := 3 }
    documentProc := { exitCode := 0, duration := 1 } }

/-- Concurrent phases that all succeed, one of them running for 10^9 time
units. -/
def envParLongTest : ParallelEnv :=
  { testProc := { exitCode := 0, duration := 1000000000 }
    reviewProc := { exitCode := 0, duration := 1 }
    documentProc := { exitCode := 0, duration := 1 } }

end Sdlc




/-! Theorems for the frozen claims. -/

/-- C10: `RunManager.complete` sets the status to `DONE`, forces `progress`
to 100 regardless of its prior value, stamps `completed_at` with the
completion time, and leaves the run's immutable metadata (`run_id`,
`task_type`, `started_at`, provenance snapshot) as well as the unrelated
mutable fields (`artifacts`, `error`) unchanged. -/
theorem claim_C10_complete_terminal (m : RunMgr.RunManager) (now : String)
    (out : Option String) :
    (m.complete now out).state.status = RunMgr.RunStatus.DONE
    ∧ (m.complete now out).state.progress = 100
    ∧ (m.complete now out).state.completed_at = some now
    ∧ (m.complete now out).metadata = m.metadata
    ∧ (m.complete now out).run_id = m.run_id
    ∧ (m.complete now out).state.artifacts = m.state.artifacts
    ∧ (m.complete now out).state.error = m.state.error :=
  ⟨rfl, rfl, rfl, rfl, rfl, rfl, rfl⟩

/-- C2: `run_parallel` performs the single aggregated commit (and then the
push) iff all three of the test, review and document child processes exit
with code 0; when any exits non-zero it reports exactly the failing
phase(s), performs no aggregated commit, and returns failure. -/
theorem claim_C2_parallel_commit_iff (env : Sdlc.ParallelEnv) :
    ((Sdlc.run_parallel env).committed = true ↔
      (env.testProc.exitCode = 0 ∧ env.reviewProc.exitCode = 0
        ∧ env.documentProc.exitCode = 0))
    ∧ (Sdlc.run_parallel env).ok = (Sdlc.run_parallel env).committed
    ∧ (Sdlc.run_parallel env).pushed = (Sdlc.run_parallel env).committed
    ∧ ("test" ∈ (Sdlc.run_parallel env).failed ↔ env.testProc.exitCode ≠ 0)
    ∧ ("review" ∈ (Sdlc.run_parallel env).failed ↔ env.reviewProc.exitCode ≠ 0)
    ∧ ("document" ∈ (Sdlc.run_parallel env).failed ↔
        env.documentProc.exitCode ≠ 0) := by
  obtain ⟨⟨t, dt⟩, ⟨r, dr⟩, ⟨d, dd⟩⟩ := env
  by_cases ht : t = 0 <;> by_cases hr : r = 0 <;> by_cases hd : d = 0 <;>
    simp_all [Sdlc.run_parallel]

/-- C2 witness: with only the review phase failing, the commit is skipped and
the review phase is reported; with all three succeeding, the aggregated
commit happens. -/
theorem claim_C2_witness :
    "review" ∈ (Sdlc.run_parallel Sdlc.envParReviewFail).failed
    ∧ (Sdlc.run_parallel Sdlc.envParReviewFail).committed = false
    ∧ (Sdlc.run_parallel Sdlc.envParAllOk).committed = true := by
  refine ⟨(claim_C2_parallel_commit_iff Sdlc.envParReviewFail).2.2.2.2.1.mpr
    (by decide), ?_, (claim_C2_parallel_commit_iff Sdlc.envParAllOk).1.mpr
    (by decide)⟩
  have h := (claim_C2_parallel_commit_iff Sdlc.envParReviewFail).1
  simp only [Sdlc.envParReviewFail] at h ⊢
  decide

/-- C3: in sequential mode, whenever a phase was started and its child
process exits non-zero, the orchestrator exits with a non-zero code and no
later phase in the plan, build, test, review, document order is ever
started. -/
theorem claim_C3_sequential_halts (env : Sdlc.SeqEnv) (i : Fin 5)
    (hstart : Sdlc.phaseName i ∈ (Sdlc.mainSequential env).started)
    (hfail : Sdlc.phaseExit env i ≠ 0) :
    (Sdlc.mainSequential env).exitCode = 1
    ∧ ∀ j : Fin 5, i < j →
        Sdlc.phaseName j ∉ (Sdlc.mainSequential env).started := by
  obtain ⟨p, b, t, r, d⟩ := env
  by_cases hp : p = 0 <;> by_cases hb : b = 0 <;> by_cases ht : t = 0 <;>
    by_cases hr : r = 0 <;> by_cases hd : d = 0 <;>
    fin_cases i <;>
    simp_all [Sdlc.mainSequential, Sdlc.phaseName, Sdlc.phaseExit] <;>
    (intro j hj; fin_cases j <;> simp_all)

/-- C3 witness: with the test phase exiting 1 (plan and build succeeding),
the pipeline exits 1 and neither review nor document is started. -/
theorem claim_C3_witness :
    (Sdlc.mainSequential Sdlc.envSeqTestFail).exitCode = 1
    ∧ ∀ j : Fin 5, (2 : Fin 5) < j →
        Sdlc.phaseName j ∉ (Sdlc.mainSequential Sdlc.envSeqTestFail).started :=
  claim_C3_sequential_halts Sdlc.envSeqTestFail 2 (by decide) (by decide)

/-- C8 counterexample: `run_parallel`'s blocking waits are subject to no
wall-clock timeout at all — there is no fixed bound within which the
wait-for-all returns (the elapsed time is the maximum of the three process
durations, which is unbounded), and a process running for 10^9 time units
with exit code 0 is still counted as a success rather than being terminated
and counted as a failure. -/
theorem claim_C8_counterexample :
    (¬ ∃ T : Nat, ∀ env : Sdlc.ParallelEnv, (Sdlc.run_parallel env).elapsed ≤ T)
    ∧ (Sdlc.run_parallel Sdlc.envParLongTest).committed = true
    ∧ (Sdlc.run_parallel Sdlc.envParLongTest).elapsed = 1000000000 := by
  refine ⟨?_, rfl, rfl⟩
  rintro ⟨T, h⟩
  have := h { testProc := { exitCode := 0, duration := T + 1 }
              reviewProc := { exitCode := 0, duration := 1 }
              documentProc := { exitCode := 0, duration := 1 } }
  simp [Sdlc.run_parallel] at this

/-- C8 amended: in concurrent mode the orchestrator's blocking wait on the
three spawned phase processes has no timeout: the wait-for-all returns after
exactly the maximum of the three process durations (so it is unbounded over
environments), no process is ever forcibly terminated, and the pass/fail
accounting depends only on the exit codes — changing the durations changes
nothing but the elapsed time. -/
theorem claim_C8_amended (env : Sdlc.ParallelEnv) (d1 d2 d3 : Nat) :
    (Sdlc.run_parallel env).elapsed =
      max env.testProc.duration (max env.reviewProc.duration
        env.documentProc.duration)
    ∧ (Sdlc.run_parallel
        { testProc := { env.testProc with duration := d1 }
          reviewProc := { env.reviewProc with duration := d2 }
          documentProc := { env.documentProc with duration := d3 } }).committed
      = (Sdlc.run_parallel env).committed
    ∧ (Sdlc.run_parallel
        { testProc := { env.testProc with duration := d1 }
          reviewProc := { env.reviewProc with duration := d2 }
          documentProc := { env.documentProc with duration := d3 } }).failed
      = (Sdlc.run_parallel env).failed
    ∧ (Sdlc.run_parallel
        { testProc := { env.testProc with duration := d1 }
          reviewProc := { env.reviewProc with duration := d2 }
          documentProc := { env.documentProc with duration := d3 } }).ok
      = (Sdlc.run_parallel env).ok
    ∧ (Sdlc.run_parallel
        { testProc := { env.testProc with duration := d1 }
          reviewProc := { env.reviewProc with duration := d2 }
          documentProc := { env.documentProc with duration := d3 } }).elapsed
      = max d1 (max d2 d3) := by
  obtain ⟨⟨t, dt⟩, ⟨r, dr⟩, ⟨d, dd⟩⟩ := env
  by_cases ht : t = 0 <;> by_cases hr : r = 0 <;> by_cases hd : d = 0 <;>
    simp only [Sdlc.run_parallel, ht, hr, hd] <;> simp_all

/-- C7: run ids are not always distinct. `generate_run_id` appends
`secrets.token_hex(2)` — four hex characters, 65536 possible values — to a
date-and-slug prefix that is constant across same-day invocations with the
same task, and nothing checks for collisions; hence among any 65537 start
calls sharing a date and task, whatever bytes the generator draws, two
produce the same `run_id`. -/
theorem claim_C7_runid_collision (datePart taskType description : String)
    (draws : Fin 65537 → Fin 65536) :
    ∃ i j : Fin 65537, i ≠ j ∧
      RunId.startRunId datePart taskType description (draws i) =
        RunId.startRunId datePart taskType description (draws j) := by
  obtain ⟨i, j, hne, heq⟩ :=
    Fintype.exists_ne_map_eq_of_card_lt draws
      (by simp only [Fintype.card_fin]; omega)
  exact ⟨i, j, hne,
    congrArg (RunId.startRunId datePart taskType description) heq⟩

/-- C5 counterexample: on Bitbucket the claim fails — a lookup whose HTTP
request raises is caught by the blanket `except Exception` handler and
returned as `None`, the very value that means "no PR found", so the failed
lookup at the concrete input `failure "HTTP 500"` is not surfaced as a
distinct outcome. -/
theorem claim_C5_counterexample :
    GitOps.check_pr_bitbucket (.failure "HTTP 500") = none
    ∧ GitOps.check_pr_bitbucket (.success []) = none :=
  ⟨rfl, rfl⟩

/-- C5 amended: the GitHub lookup distinguishes "no request found" from "the
lookup itself failed" — any failure of the repository-info step, any `gh`
failure whose stderr lacks the "no pull requests" marker, and any unparseable
output surface as a raised `GitHubAPIError`, never as the `None` that means
not-found; the Bitbucket lookup however catches every failure and silently
returns `None`, identical to not-found. -/
theorem claim_C5_amended (env : GitOps.GhEnv)
    (hfail : env.repoInfoOk = false
      ∨ (∃ stderr, env.outcome = .cmdFailed stderr
          ∧ GitOps.hasSubstr (GitOps.strLower stderr) "no pull requests" = false)
      ∨ (∃ raw, env.outcome = .badJson raw)) :
    (∃ msg, GitOps.check_pr_github env = .error msg)
    ∧ ∀ reason, GitOps.check_pr_bitbucket (.failure reason) = none := by
  refine ⟨?_, fun _ => rfl⟩
  obtain ⟨ok, outcome⟩ := env
  rcases hfail with h | ⟨stderr, houtcome, hmark⟩ | ⟨raw, houtcome⟩
  · subst h
    exact ⟨_, rfl⟩
  · cases houtcome
    cases ok <;> simp [GitOps.check_pr_github, hmark]
  · cases houtcome
    cases ok <;> simp [GitOps.check_pr_github]

/-- C5 witness: a GitHub lookup whose `gh` subprocess fails with an
unrelated stderr is surfaced as an error. -/
theorem claim_C5_witness :
    (∃ msg, GitOps.check_pr_github
        { repoInfoOk := true, outcome := .cmdFailed "rate limit exceeded" }
      = .error msg)
    ∧ ∀ reason, GitOps.check_pr_bitbucket (.failure reason) = none :=
  claim_C5_amended
    { repoInfoOk := true, outcome := .cmdFailed "rate limit exceeded" }
    (Or.inr (Or.inl ⟨"rate limit exceeded", rfl, by decide⟩))

/-- C6: `ADWState.load` is a total function into `Option` (the source wraps
every step in handlers ending with a catch-all `except Exception`, so no
exception escapes) and returns `None`, the "not found" value, in every
failure case: absent file, unparseable JSON, and a parsed document violating
the schema (no usable `adw_id`). -/
theorem claim_C6_load_never_raises (raw : String) (doc : StateStore.JsonDoc)
    (hbad : ∀ a, doc.adw_id = some a → a.isEmpty = true) :
    StateStore.ADWState.load .absent = none
    ∧ StateStore.ADWState.load (.unparsable raw) = none
    ∧ StateStore.ADWState.load (.parsed doc) = none := by
  refine ⟨rfl, rfl, ?_⟩
  cases hda : doc.adw_id with
  | none => simp [StateStore.ADWState.load, StateStore.ADWStateData.validate, hda]
  | some a =>
    have := hbad a hda
    simp [StateStore.ADWState.load, StateStore.ADWStateData.validate, hda, this]

/-- C6 witness: a state file with malformed JSON and one whose document lacks
`adw_id` both load as "not found". -/
theorem claim_C6_witness :
    StateStore.ADWState.load .absent = none
    ∧ StateStore.ADWState.load (.unparsable "not valid json ::") = none
    ∧ StateStore.ADWState.load (.parsed StateStore.docNoAdwId) = none :=
  claim_C6_load_never_raises "not valid json ::" StateStore.docNoAdwId
    (by intro a ha; simp [StateStore.docNoAdwId] at ha)

/-- Helper: a fold of `update` calls none of which supplies the `adw_id`
kwarg changes neither the instance attribute nor the stored `adw_id`. -/
theorem applyUpdates_adw_id (us : List StateStore.UpdateKwargs)
    (s : StateStore.ADWState) (h : ∀ u ∈ us, u.adw_id = none) :
    (StateStore.applyUpdates s us).adw_id = s.adw_id
    ∧ (StateStore.applyUpdates s us).data.adw_id = s.data.adw_id := by
  induction us generalizing s with
  | nil => exact ⟨rfl, rfl⟩
  | cons u us ih =>
    have hu : u.adw_id = none := h u (by simp)
    have hrest : ∀ v ∈ us, v.adw_id = none := fun v hv => h v (by simp [hv])
    have hstep : StateStore.applyUpdates s (u :: us)
        = StateStore.applyUpdates (s.update u) us := rfl
    have ihs := ih (s.update u) hrest
    rw [hstep]
    refine ⟨ihs.1, ihs.2.trans ?_⟩
    simp [StateStore.ADWState.update, StateStore.setIfGiven, hu]

/-- C9 counterexample: the stored workflow id is mutable. After
`create("ADW-7F2A")`, the single whitelisted call
`update(adw_id="ADW-9Z9Z")` makes `save` write `"ADW-9Z9Z"` — not the id
supplied at creation — because `"adw_id"` is itself in `update`'s
`core_fields` whitelist. -/
theorem claim_C9_counterexample :
    (StateStore.ADWState.create "ADW-7F2A").map
        (fun s => (s.update { adw_id := some "ADW-9Z9Z" }).save)
      = .ok (.ok { adw_id := "ADW-9Z9Z"
                   issue_number := none
                   branch_name := none
                   plan_file := none
                   issue_class := none })
    ∧ ("ADW-9Z9Z" : String) ≠ "ADW-7F2A" :=
  ⟨rfl, by decide⟩

/-- C9 amended: the workflow id is immutable under every sequence of updates
that does not itself supply the `adw_id` key (which `update`'s whitelist
admits): for such sequences the instance attribute, the stored data entry,
and the id written by every successful `save` all remain the id supplied at
creation. -/
theorem claim_C9_amended (a : String) (s : StateStore.ADWState)
    (us : List StateStore.UpdateKwargs)
    (hc : StateStore.ADWState.create a = .ok s)
    (h : ∀ u ∈ us, u.adw_id = none) :
    (StateStore.applyUpdates s us).adw_id = a
    ∧ (StateStore.applyUpdates s us).data.adw_id = some a
    ∧ ∀ d, (StateStore.applyUpdates s us).save = .ok d → d.adw_id = a := by
  unfold StateStore.ADWState.create at hc
  by_cases ha : a.isEmpty
  · simp [ha] at hc
  · simp only [ha, Bool.false_eq_true, if_false, Except.ok.injEq] at hc
    subst hc
    have key := applyUpdates_adw_id us
      { adw_id := a, data := { adw_id := some a } } h
    refine ⟨key.1, key.2, ?_⟩
    intro d hd
    unfold StateStore.ADWState.save StateStore.ADWStateData.validate at hd
    rw [key.2] at hd
    simp only [ha, Bool.false_eq_true, if_false, Except.ok.injEq] at hd
    rw [← hd]

/-- C9 witness: the scenario sequence `create("ADW-7F2A")` then
`update(branch_name="feature/x")` keeps the stored workflow id at
`"ADW-7F2A"`. -/
theorem claim_C9_witness :
    (StateStore.applyUpdates StateStore.baseState
      StateStore.scenarioUpdates).adw_id = "ADW-7F2A"
    ∧ (StateStore.applyUpdates StateStore.baseState
        StateStore.scenarioUpdates).data.adw_id = some "ADW-7F2A"
    ∧ ∀ d, (StateStore.applyUpdates StateStore.baseState
        StateStore.scenarioUpdates).save = .ok d → d.adw_id = "ADW-7F2A" :=
  claim_C9_amended "ADW-7F2A" StateStore.baseState StateStore.scenarioUpdates
    rfl (by intro u hu; simp [StateStore.scenarioUpdates] at hu; subst hu; rfl)

/-- Helper: a successful `save` forces `self.data` to hold exactly the five
values the written document records, with a non-empty stored id. -/
theorem save_ok_shape (s : StateStore.ADWState) (d : StateStore.ADWStateData)
    (h : s.save = .ok d) :
    s.data = { adw_id := some d.adw_id
               issue_number := d.issue_number
               branch_name := d.branch_name
               plan_file := d.plan_file
               issue_class := d.issue_class }
    ∧ d.adw_id.isEmpty = false := by
  obtain ⟨attr, f1, f2, f3, f4, f5⟩ := s
  unfold StateStore.ADWState.save StateStore.ADWStateData.validate at h
  cases f1 with
  | none => simp at h
  | some a =>
    by_cases ha : a.isEmpty
    · simp [ha] at h
    · simp only [ha, Bool.false_eq_true, if_false, Except.ok.injEq] at h
      subst h
      exact ⟨rfl, by simpa using ha⟩

/-- Helper: loading the JSON object written for a valid document rebuilds the
state whose attribute and stored fields come from that document. -/
theorem load_of_toDoc (d : StateStore.ADWStateData)
    (hne : d.adw_id.isEmpty = false) :
    StateStore.ADWState.load (.parsed d.toDoc) =
      some { adw_id := d.adw_id
             data := { adw_id := some d.adw_id
                       issue_number := d.issue_number
                       branch_name := d.branch_name
                       plan_file := d.plan_file
                       issue_class := d.issue_class } } := by
  simp [StateStore.ADWState.load, StateStore.ADWStateData.toDoc,
    StateStore.ADWStateData.validate, hne]

/-- C4: `save` followed by `load` with no intervening update round-trips to
an equal state: the reloaded state's five whitelisted observations (all that
`get`/`to_stdout` expose) equal the original's, and whenever the stored
`adw_id` agrees with the instance attribute — as it does for every state
built by `create` plus whitelisted updates not renaming `adw_id` — the
reloaded object equals the original outright. The scenario
`create("ADW-7F2A")`, `update(branch_name="feature/x")`, `save`, reload is
the witness below. -/
theorem claim_C4_save_load_roundtrip (s : StateStore.ADWState)
    (d : StateStore.ADWStateData) (hsave : s.save = .ok d) :
    ∃ s', StateStore.ADWState.load (.parsed d.toDoc) = some s'
      ∧ s'.observations = s.observations
      ∧ (s.data.adw_id = some s.adw_id → s' = s) := by
  obtain ⟨hdata, hne⟩ := save_ok_shape s d hsave
  refine ⟨_, load_of_toDoc d hne, ?_, ?_⟩
  · simp [StateStore.ADWState.observations, hdata]
  · intro hattr
    have hid : some d.adw_id = some s.adw_id := by
      rw [← hattr, hdata]
    obtain ⟨attr, data⟩ := s
    simp only [Option.some.injEq] at hid
    simp_all

/-- C4 witness: the spec's scenario — after `create("ADW-7F2A")` and
`update(branch_name="feature/x")`, saving and reloading yields a state with
`branch_name == "feature/x"` and `issue_number` unset, equal to the state
saved. -/
theorem claim_C4_witness :
    StateStore.scenarioState.save = .ok StateStore.scenarioDoc
    ∧ StateStore.scenarioState.data.branch_name = some "feature/x"
    ∧ StateStore.scenarioState.data.issue_number = none
    ∧ ∃ s', StateStore.ADWState.load (.parsed StateStore.scenarioDoc.toDoc)
        = some s'
      ∧ s'.observations = StateStore.scenarioState.observations
      ∧ (StateStore.scenarioState.data.adw_id
            = some StateStore.scenarioState.adw_id →
          s' = StateStore.scenarioState) :=
  ⟨rfl, rfl, rfl,
    claim_C4_save_load_roundtrip StateStore.scenarioState
      StateStore.scenarioDoc rfl⟩

/-- Helper: posting correlation comments never invokes PR creation. -/
theorem commentEvents_no_create (env : GitOps.FinalizeEnv) :
    (GitOps.commentEvents env).filter GitOps.Event.isCreate = [] := by
  unfold GitOps.commentEvents
  split <;> rfl

/-- Helper: the creation arm invokes `create_pull_request` only for the
branch it was reached with. -/
theorem createPart_mem (env : GitOps.FinalizeEnv) (b b' : String)
    (h : GitOps.Event.invokedCreate b' ∈ GitOps.createPart env b) : b' = b := by
  unfold GitOps.createPart GitOps.commentEvents at h
  repeat' split at h
  all_goals simp_all

/-- Helper: one pass through the creation arm invokes `create_pull_request`
at most once. -/
theorem createPart_count (env : GitOps.FinalizeEnv) (b : String) :
    ((GitOps.createPart env b).filter GitOps.Event.isCreate).length ≤ 1 := by
  unfold GitOps.createPart GitOps.commentEvents
  repeat' split
  all_goals simp [GitOps.Event.isCreate]

/-- Helper: the lookup tail invokes creation only for its own branch. -/
theorem lookupPart_mem (env : GitOps.FinalizeEnv) (b b' : String)
    (h : GitOps.Event.invokedCreate b' ∈ GitOps.lookupPart env b) : b' = b := by
  unfold GitOps.lookupPart GitOps.commentEvents at h
  repeat' split at h
  all_goals first
    | exact createPart_mem env b b' h
    | simp_all

/-- Helper: the lookup tail invokes creation at most once. -/
theorem lookupPart_count (env : GitOps.FinalizeEnv) (b : String) :
    ((GitOps.lookupPart env b).filter GitOps.Event.isCreate).length ≤ 1 := by
  unfold GitOps.lookupPart
  repeat' split
  all_goals first
    | exact createPart_count env b
    | simp [List.filter_cons, GitOps.Event.isCreate, commentEvents_no_create]

/-- Helper: a lookup that returns a truthy existing-PR url short-circuits —
the lookup tail performs no creation at all. -/
theorem lookupPart_count_found (env : GitOps.FinalizeEnv) (b url : String)
    (hl : env.lookup = .ok (some url)) (hne : url.isEmpty = false) :
    ((GitOps.lookupPart env b).filter GitOps.Event.isCreate).length = 0 := by
  unfold GitOps.lookupPart
  rw [hl]
  simp [hne, List.filter_cons, GitOps.Event.isCreate, commentEvents_no_create]

/-- Helper: when the push step's tail contains a creation, the push and the
PR-existence check happened first, for that same branch. -/
theorem pushPart_shape (env : GitOps.FinalizeEnv) (b b' : String)
    (h : GitOps.Event.invokedCreate b' ∈ GitOps.pushPart env b) :
    GitOps.pushPart env b
        = GitOps.Event.pushed b :: GitOps.Event.checkedPR b
          :: GitOps.lookupPart env b
    ∧ b' = b
    ∧ GitOps.Event.invokedCreate b' ∈ GitOps.lookupPart env b := by
  unfold GitOps.pushPart at h ⊢
  split at h
  · simp only [List.mem_cons] at h
    rcases h with h | h | h
    · simp at h
    · simp at h
    · exact ⟨by rw [if_pos]; assumption, lookupPart_mem env b b' h, h⟩
  · simp at h

/-- Helper: the push step invokes creation at most once. -/
theorem pushPart_count (env : GitOps.FinalizeEnv) (b : String) :
    ((GitOps.pushPart env b).filter GitOps.Event.isCreate).length ≤ 1 := by
  unfold GitOps.pushPart
  split
  · simpa [List.filter_cons, GitOps.Event.isCreate] using lookupPart_count env b
  · simp [GitOps.Event.isCreate]

/-- Helper: one finalize run invokes `create_pull_request` at most once. -/
theorem finalize_count (env : GitOps.FinalizeEnv) :
    GitOps.createCount env ≤ 1 := by
  unfold GitOps.createCount GitOps.finalize_git_operations GitOps.branchFallback
  repeat' split
  all_goals first
    | exact pushPart_count env _
    | simpa [List.filter_cons, GitOps.Event.isCreate]
        using pushPart_count env _
    | simp [GitOps.Event.isCreate]

/-- Helper: a finalize run whose PR lookup returns a truthy url performs no
creation. -/
theorem finalize_count_found (env : GitOps.FinalizeEnv) (url : String)
    (hl : env.lookup = .ok (some url)) (hne : url.isEmpty = false) :
    GitOps.createCount env = 0 := by
  have hpush : ∀ b,
      ((GitOps.pushPart env b).filter GitOps.Event.isCreate).length = 0 := by
    intro b
    unfold GitOps.pushPart
    split
    · simpa [List.filter_cons, GitOps.Event.isCreate]
        using lookupPart_count_found env b url hl hne
    · simp [GitOps.Event.isCreate]
  unfold GitOps.createCount GitOps.finalize_git_operations GitOps.branchFallback
  repeat' split
  all_goals first
    | exact hpush _
    | simpa [List.filter_cons, GitOps.Event.isCreate] using hpush _
    | simp [GitOps.Event.isCreate]

/-- Helper: when the branch-fallback path performs a creation, its trace is
the fallback warning followed by the push step for the current branch. -/
theorem branchFallback_shape (env : GitOps.FinalizeEnv) (b : String)
    (h : GitOps.Event.invokedCreate b ∈ GitOps.branchFallback env) :
    ∃ cur, GitOps.branchFallback env
        = GitOps.Event.warnedFallback cur :: GitOps.pushPart env cur
      ∧ GitOps.Event.invokedCreate b ∈ GitOps.pushPart env cur := by
  unfold GitOps.branchFallback at h
  cases hcb : env.currentBranch with
  | error e => rw [hcb] at h; simp at h
  | ok cur =>
    rw [hcb] at h
    by_cases hc : (!cur.isEmpty && cur != "main") = true
    · have h' : GitOps.Event.invokedCreate b ∈
          (if (!cur.isEmpty && cur != "main") = true
            then GitOps.Event.warnedFallback cur :: GitOps.pushPart env cur
            else [GitOps.Event.erroredState
              "No branch name in state and current branch is main"]) := h
      rw [if_pos hc] at h'
      rcases List.mem_cons.mp h' with h'' | h''
      · simp at h''
      · refine ⟨cur, ?_, h''⟩
        unfold GitOps.branchFallback
        rw [hcb]
        exact if_pos hc
    · have h' : GitOps.Event.invokedCreate b ∈
          (if (!cur.isEmpty && cur != "main") = true
            then GitOps.Event.warnedFallback cur :: GitOps.pushPart env cur
            else [GitOps.Event.erroredState
              "No branch name in state and current branch is main"]) := h
      rw [if_neg hc] at h'
      simp at h'

/-- C1: the finalize sequence is idempotent with respect to change-request
creation. (i) Whenever a run invokes `create_pull_request` for a branch, its
trace first pushed and then performed the existing-PR lookup for that very
branch, preceded at most by the branch-fallback warning — check always comes
before create. (ii) When the lookup returns an existing request url,
`create_pull_request` is never invoked. (iii) A single run never creates more
than one request. (iv) Hence running the sequence twice never creates two
requests: as soon as the second run's lookup reflects a creation by the first
(returns the created PR's url), the two runs together invoke creation at most
once. -/
theorem claim_C1_finalize_idempotent (env1 env2 : GitOps.FinalizeEnv) :
    (∀ b, GitOps.Event.invokedCreate b ∈ GitOps.finalize_git_operations env1 →
      ∃ pre post, GitOps.finalize_git_operations env1
          = pre ++ GitOps.Event.pushed b :: GitOps.Event.checkedPR b :: post
        ∧ (∀ e ∈ pre, ∃ c, e = GitOps.Event.warnedFallback c)
        ∧ GitOps.Event.invokedCreate b ∈ post)
    ∧ (∀ url, env1.lookup = .ok (some url) → url.isEmpty = false →
        GitOps.createCount env1 = 0)
    ∧ GitOps.createCount env1 ≤ 1
    ∧ ((1 ≤ GitOps.createCount env1 →
          ∃ url, env2.lookup = .ok (some url) ∧ url.isEmpty = false) →
        GitOps.createCount env1 + GitOps.createCount env2 ≤ 1) := by
  refine ⟨?_, ?_, finalize_count env1, ?_⟩
  · intro b hmem
    have hsplit : GitOps.finalize_git_operations env1
          = GitOps.branchFallback env1
        ∨ ∃ s, GitOps.finalize_git_operations env1 = GitOps.pushPart env1 s := by
      unfold GitOps.finalize_git_operations
      cases env1.stateBranch with
      | none => exact Or.inl rfl
      | some s =>
        by_cases hse : s.isEmpty
        · exact Or.inl (if_pos hse)
        · exact Or.inr ⟨s, if_neg hse⟩
    rcases hsplit with heq | ⟨s, heq⟩
    · rw [heq] at hmem
      obtain ⟨cur, heqfb, hpp⟩ := branchFallback_shape env1 b hmem
      obtain ⟨hshape, rfl, hpost⟩ := pushPart_shape env1 cur b hpp
      exact ⟨[GitOps.Event.warnedFallback b], _,
        by rw [heq, heqfb, hshape]; rfl, by simp, hpost⟩
    · rw [heq] at hmem
      obtain ⟨hshape, rfl, hpost⟩ := pushPart_shape env1 s b hmem
      exact ⟨[], _, by rw [heq, hshape]; rfl, by simp, hpost⟩
  · intro url hl hne
    exact finalize_count_found env1 url hl hne
  · intro hsecond
    by_cases h1 : GitOps.createCount env1 = 0
    · have := finalize_count env2
      omega
    · obtain ⟨url, hl, hne⟩ := hsecond (by omega)
      have h2 := finalize_count_found env2 url hl hne
      have := finalize_count env1
      omega

/-- C1 witness: in a concrete run whose lookup finds an existing PR, creation
is not invoked; combined with a concrete creating run whose created PR the
second lookup would find, the two runs create at most one request; and in the
creating run, the push and the lookup precede the creation. -/
theorem claim_C1_witness :
    GitOps.createCount GitOps.envFoundRun = 0
    ∧ GitOps.createCount GitOps.envCreateRun
        + GitOps.createCount GitOps.envFoundRun ≤ 1
    ∧ ∃ pre post, GitOps.finalize_git_operations GitOps.envCreateRun
          = pre ++ GitOps.Event.pushed "feature/x"
            :: GitOps.Event.checkedPR "feature/x" :: post
        ∧ (∀ e ∈ pre, ∃ c, e = GitOps.Event.warnedFallback c)
        ∧ GitOps.Event.invokedCreate "feature/x" ∈ post :=
  ⟨(claim_C1_finalize_idempotent GitOps.envFoundRun GitOps.envFoundRun).2.1
      "https://example.com/pr/1" rfl (by decide),
   (claim_C1_finalize_idempotent GitOps.envCreateRun GitOps.envFoundRun).2.2.2
      (fun _ => ⟨"https://example.com/pr/1", rfl, by decide⟩),
   (claim_C1_finalize_idempotent GitOps.envCreateRun GitOps.envFoundRun).1
      "feature/x" (by decide)⟩
